import Mathlib

/-!
# Verification of the OceanOptics STS-VIS driver protocol layer

Shallow embedding of `src/OceanOptics/STS.py` (class `STSVIS`): the packet
codec (`_build_packet`, `_update_bytes_remaining`), the transport exchange
(`_send_command_to_device`, `_query_device`, `_internal_read`,
`_external_read`), the error dispatcher (`_error_management`) and the
command-catalog operations the claims touch (`set_scans_to_avg`,
`set_trigger_mode`, `set_irrad_calib`, `set_wav_coeff`, `reset_device`).

Bytes are modelled as `Nat` (the Python `struct.pack('<B', _)` calls require
values in 0..255; every value the modelled paths store is already reduced
mod 256 where the source reduces it).  USB traffic is modelled explicitly:
the frames the device will return on the active line are passed in as a
list `incoming : List (List Nat)`, writes to the OUT endpoint are collected
in a list, and the number of IN-endpoint reads performed is counted.
A raised Python exception is modelled as an `Option DriverError` result.
-/

namespace STS

/-- Errors the driver can raise: `STS_Error` (raised by `_error_management`,
carrying the device error code it dispatched on) and `usb.core.USBError`
raised by the underlying transport write. -/
inductive DriverError where
  | sts (code : Nat)
  | usb
  deriving DecidableEq, Repr

/-- The mutable packet fields of an `STSVIS` object, with the default values
set in `__init__`.  `headerTop`, `protocolVersion`, `flags`, `errorNumber`,
`checksumType`, `checksum` and `footer` are never mutated by any method but
are kept as state for fidelity to the source. -/
structure STSState where
  headerTop : List Nat := [193, 192]
  protocolVersion : List Nat := [17, 0]
  flags : List Nat := [0, 0]
  errorNumber : List Nat := [0, 0]
  regarding : List Nat := [0, 0, 0, 0]
  checksumType : Nat := 0
  immediateDataLength : Nat := 0
  immediateData : List Nat := List.replicate 16 0
  bytesRemaining : List Nat := [20, 0, 0, 0]
  checksum : List Nat := List.replicate 16 0
  footer : List Nat := [197, 196, 195, 194]
  deriving DecidableEq, Repr

/-- The state right after `__init__` sets the defaults. -/
def initState : STSState := {}

/-- `struct.pack('<I', n)`: four little-endian bytes of `n` (source callers
pass command codes `< 2^32`). -/
def u32le (n : Nat) : List Nat :=
  [n % 256, (n / 256) % 256, (n / 256 ^ 2) % 256, (n / 256 ^ 3) % 256]

/-- The 4-byte little-endian decode used by `_query_device` on bytes
40..43 of a response frame:
`read[40] + 256*(read[41] + 256*(read[42] + 256*(read[43])))`. -/
def read_u32le (l : List Nat) (off : Nat) : Nat :=
  l.getD off 0 + 256 * (l.getD (off + 1) 0 + 256 * (l.getD (off + 2) 0 +
    256 * l.getD (off + 3) 0))

/-- `_update_bytes_remaining(change)`: `val = change + 20`, stored as four
little-endian bytes `[d_bit, c_bit, b_bit, a_bit]`. -/
def update_bytes_remaining (change : Nat) (s : STSState) : STSState :=
  let val := change + 20
  { s with bytesRemaining :=
      [val % 256, (val / 256) % 256, (val / 256 ^ 2) % 256,
        (val / 256 ^ 3) % 256] }

/-- The zero padding appended by `_build_packet`'s
`while len(package) % 64 != 44: package += struct.pack('<B', 0)` loop,
in closed form: the least `p ≥ 0` with `(len + p) % 64 = 44`. -/
def padTo44 (len : Nat) : Nat := (44 + 64 - len % 64) % 64

/-- Sixteen bytes of a buffer field, as serialized by the
`for ii in range(16): package += struct.pack('<B', buf[ii])` loops of
`_build_packet` (unrolled). -/
def bytes16 (buf : List Nat) : List Nat :=
  [buf.getD 0 0, buf.getD 1 0, buf.getD 2 0, buf.getD 3 0,
   buf.getD 4 0, buf.getD 5 0, buf.getD 6 0, buf.getD 7 0,
   buf.getD 8 0, buf.getD 9 0, buf.getD 10 0, buf.getD 11 0,
   buf.getD 12 0, buf.getD 13 0, buf.getD 14 0, buf.getD 15 0]

/-- `_build_packet(commandtype, flags_up, data)`: serializes the packet from
the state fields.  Layout: 8 header bytes, 4-byte little-endian command,
4 "regarding" bytes, 6 reserved zeros, checksum type, immediate-data
length, all 16 `immediateData` bytes, 4 `bytesRemaining` bytes, then (when
`data` is present) the payload bytes zero-padded until the running length
is 44 mod 64, then 16 checksum bytes and the 4 footer bytes. -/
def build_packet (commandtype : Nat) (flags_up : Nat) (data : Option (List Nat))
    (s : STSState) : List Nat :=
  let package :=
    [s.headerTop.getD 0 0, s.headerTop.getD 1 0,
     s.protocolVersion.getD 0 0, s.protocolVersion.getD 1 0,
     s.flags.getD 0 0 + flags_up, s.flags.getD 1 0,
     s.errorNumber.getD 0 0, s.errorNumber.getD 1 0]
    ++ u32le commandtype
    ++ [s.regarding.getD 0 0, s.regarding.getD 1 0, s.regarding.getD 2 0,
        s.regarding.getD 3 0, 0, 0, 0, 0, 0, 0,
        s.checksumType, s.immediateDataLength]
    ++ bytes16 s.immediateData
    ++ [s.bytesRemaining.getD 0 0, s.bytesRemaining.getD 1 0,
        s.bytesRemaining.getD 2 0, s.bytesRemaining.getD 3 0]
  let package :=
    match data with
    | none => package
    | some d =>
        let withPayload := package ++ d
        withPayload ++ List.replicate (padTo44 withPayload.length) 0
  package
    ++ bytes16 s.checksum
    ++ [s.footer.getD 0 0, s.footer.getD 1 0, s.footer.getD 2 0,
        s.footer.getD 3 0]

/-- What `_error_management(error)` does: prints one category text selected
by the long `if/elif` chain, and then — the `raise` statement sits after the
whole chain, unconditionally — raises `STS_Error`.  The raise happens for
every code, 0 and 255 included. -/
structure ErrResult where
  printedCategory : String
  raises : DriverError
  deriving DecidableEq, Repr

/-- `_error_management(error)`: the category table of the source, followed by
the unconditional `raise STS_Error(...)`. -/
def error_management (error : Nat) : ErrResult :=
  { printedCategory :=
      if error = 0 then "No detectable errors"
      else if error = 1 then "Invalid/unsupported protocol"
      else if error = 2 then "Unknown message type"
      else if error = 3 then "Bad checksum"
      else if error = 4 then "Message too large"
      else if error = 5 then "Payload length does not match message type"
      else if error = 6 then "Payload data invalid"
      else if error = 7 then "Device not ready for given message type"
      else if error = 8 then "Unknown checksum type"
      else if error = 9 then "Device reset unexpectedly"
      else if error = 10 then
        "Too many buses (Commands have come from too many businterfaces)"
      else if error = 11 then
        "Out of memory. Failed to allocate enough space tocomplete request."
      else if error = 12 then
        "Command is valid, but desired information does not exist."
      else if error = 13 then "Int Device Error. May be unrecoverable."
      else if error = 100 then "Could not decrypt properly"
      else if error = 101 then "Firmware layout invalid"
      else if error = 102 then "Data packet was wrong size (not 64 bytes)"
      else if error = 103 then "Hardware revision not compatible with firmware "
      else if error = 104 then "Existing flash map not compatible with firmware"
      else if error = 255 then
        "Operation/Response Deferred. Operation will take sometime to complete. Do not ACK or NACK yet."
      else "Error Undetermined",
    raises := DriverError.sts error }

/-- Outcome of one `_send_command_to_device` call: the 64-byte chunks written
to the OUT endpoint, the number of IN-endpoint reads performed, the raised
exception if any, and whether the "No Payload Present" message was printed. -/
structure SendResult where
  writes : List (List Nat)
  readsUsed : Nat
  error : Option DriverError
  printedNoPayload : Bool
  deriving DecidableEq, Repr

/-- The per-64-byte-chunk transmission of the payload branch of
`_send_command_to_device`: `sends = len(packet)/64` writes of
`packet[64*ab : 64*ab + 64]`. -/
def chunk64 (packet : List Nat) : List (List Nat) :=
  (List.range (packet.length / 64)).map (fun ab => ((packet.drop (64 * ab)).take 64))

/-- `_send_command_to_device(command, line, payload, data)`.  `incoming`
lists the frames the device will return on the chosen line; `usbOk = false`
means the underlying `self._dev.write` raises `usb.core.USBError` (before
anything is transmitted).  With a payload the packet is written in 64-byte
chunks, otherwise in one write; then, unless the command is the reset
command `0x00000000`, one ACK read is done (flags byte `read[4] == 3`),
retried once, and a still-unacknowledged frame is handed to
`_error_management`, which raises. -/
def send_command_to_device (command : Nat) (payload : Bool)
    (data : Option (List Nat)) (s : STSState)
    (incoming : List (List Nat)) (usbOk : Bool) : SendResult :=
  let sent : List (List Nat) × Option DriverError × Bool :=
    if payload then
      match data with
      | none => ([], none, true)  -- prints "No Payload Present"; nothing written
      | some d =>
          if usbOk then (chunk64 (build_packet command 4 (some d) s), none, false)
          else ([], some DriverError.usb, false)
    else
      if usbOk then ([build_packet command 4 none s], none, false)
      else ([], some DriverError.usb, false)
  match sent with
  | (w, some e, p) =>
      { writes := w, readsUsed := 0, error := some e, printedNoPayload := p }
  | (w, none, p) =>
      if command ≠ 0 then  -- "If we didn't send the reset command"
        let read := incoming.getD 0 []
        if read.getD 4 0 ≠ 3 then
          let read := incoming.getD 1 []
          if read.getD 4 0 ≠ 3 then
            { writes := w, readsUsed := 2,
              error := some (error_management (read.getD 6 0)).raises,
              printedNoPayload := p }
          else { writes := w, readsUsed := 2, error := none, printedNoPayload := p }
        else { writes := w, readsUsed := 1, error := none, printedNoPayload := p }
      else { writes := w, readsUsed := 0, error := none, printedNoPayload := p }

/-- `_internal_read(read, bytes_for_reading)`: the `bytes_for_reading` bytes
starting at offset 24 (the immediate-data field) of the response frame. -/
def internal_read (read : List Nat) (bytes_for_reading : Nat) : List Nat :=
  (List.range bytes_for_reading).map (fun ab => read.getD (24 + ab) 0)

/-- `_external_read(line, read, bytes_for_reading)`: performs
`to_read = bytes_for_reading/64` further reads on the same line, appends
them to the response frame already read, and returns the `to_read*64`
bytes starting at offset 44.  Also returns `to_read`, the number of
additional reads issued. -/
def external_read (read : List Nat) (stream : List (List Nat))
    (bytes_for_reading : Nat) : List Nat × Nat :=
  let to_read := bytes_for_reading / 64
  let full := read ++ (stream.take to_read).flatten
  ((List.range (to_read * 64)).map (fun ll => full.getD (44 + ll) 0), to_read)

/-- What a `_query_device` call can produce: the Python `None` fall-through
(no `return` executed), returned data, or a raised exception. -/
inductive QueryOutcome where
  | retNone
  | retData (data : List Nat)
  | raised (e : DriverError)
  deriving DecidableEq, Repr

/-- Outcome of one `_query_device` call: the request frame written, the
total number of IN-endpoint reads performed, and the outcome. -/
structure QueryResult where
  sent : List Nat
  readsUsed : Nat
  outcome : QueryOutcome
  deriving DecidableEq, Repr

/-- `_query_device(command, line)`: builds the request with `flags_up = 0`,
writes it, reads one frame.  The source only processes data inside the
`if read[4] != 1` branch: when the first frame already has flags byte 1 the
function falls off the end and returns `None`.  Otherwise a second read is
made; if it also lacks flags byte 1 the error manager raises, else the
bytes-remaining field at offset 40 decides between `_internal_read` (== 20)
and `_external_read` (otherwise, fed the rest of the line's stream). -/
def query_device (command : Nat) (s : STSState)
    (incoming : List (List Nat)) : QueryResult :=
  let packet := build_packet command 0 none s
  let read := incoming.getD 0 []
  if read.getD 4 0 ≠ 1 then
    let read := incoming.getD 1 []
    if read.getD 4 0 ≠ 1 then
      { sent := packet, readsUsed := 2,
        outcome := QueryOutcome.raised (error_management (read.getD 6 0)).raises }
    else
      let bytes_left := read_u32le read 40
      if bytes_left = 20 then
        { sent := packet, readsUsed := 2,
          outcome := QueryOutcome.retData (internal_read read (read.getD 23 0)) }
      else
        let ex := external_read read (incoming.drop 2) bytes_left
        { sent := packet, readsUsed := 2 + ex.2,
          outcome := QueryOutcome.retData ex.1 }
  else
    { sent := packet, readsUsed := 1, outcome := QueryOutcome.retNone }

/-- Outcome of one command-catalog call: the object state afterwards (a
raised exception skips the statements after the `_send_command_to_device`
call, so the trailing `immediateDataLength = 0` reset may not run), the
writes and reads performed, the exception that escaped, and whether a
validation message was printed. -/
structure CommandResult where
  state : STSState
  writes : List (List Nat)
  readsUsed : Nat
  error : Option DriverError
  printedError : Bool
  deriving DecidableEq, Repr

/-- `set_scans_to_avg(scans, line)`: when `scans < 5001 and scans > 0`,
stores `scans%256` and `(scans/256)%256` in immediate-data bytes 0 and 1,
sets the declared length to 2 and sends command `0x00120010`; otherwise
prints a message.  The final `immediateDataLength = 0` sits after the
`if/else`, so it runs in both branches — unless the send raised.
Python's floor division and nonnegative modulus are `Int.fdiv`/`Int.fmod`. -/
def set_scans_to_avg (scans : Int) (s : STSState)
    (incoming : List (List Nat)) : CommandResult :=
  if scans < 5001 ∧ 0 < scans then
    let s1 : STSState := { s with
      immediateData :=
        (s.immediateData.set 0 (scans.fmod 256).toNat).set 1
          (((scans.fdiv 256).fmod 256).toNat),
      immediateDataLength := 2 }
    let r := send_command_to_device 0x00120010 false none s1 incoming true
    match r.error with
    | some e =>
        { state := s1, writes := r.writes, readsUsed := r.readsUsed,
          error := some e, printedError := false }
    | none =>
        { state := { s1 with immediateDataLength := 0 }, writes := r.writes,
          readsUsed := r.readsUsed, error := none, printedError := false }
  else
    { state := { s with immediateDataLength := 0 }, writes := [],
      readsUsed := 0, error := none, printedError := true }

/-- `set_trigger_mode(trig, line)`: the guard is `abs(trig) < 3` (so −2 and
−1 pass it, not only 0, 1, 2); in the guarded branch immediate-data byte 0
is set to `trig`, the declared length to 1, and command `0x00110110` is
sent, after which the length is reset; otherwise a message is printed and
nothing else happens (the length is not reset in that branch).  The source
stores `trig` raw in a byte buffer, so a negative in-range value would be
rejected by the byte packing at build time; the buffer is `Nat`-valued
here (`Int.toNat`) and the theorems below never evaluate a negative store. -/
def set_trigger_mode (trig : Int) (s : STSState)
    (incoming : List (List Nat)) : CommandResult :=
  if trig.natAbs < 3 then
    let s1 : STSState := { s with
      immediateData := s.immediateData.set 0 trig.toNat,
      immediateDataLength := 1 }
    let r := send_command_to_device 0x00110110 false none s1 incoming true
    match r.error with
    | some e =>
        { state := s1, writes := r.writes, readsUsed := r.readsUsed,
          error := some e, printedError := false }
    | none =>
        { state := { s1 with immediateDataLength := 0 }, writes := r.writes,
          readsUsed := r.readsUsed, error := none, printedError := false }
  else
    { state := s, writes := [], readsUsed := 0, error := none,
      printedError := true }

/-- `set_wav_coeff(index, coeff, line)`: stores `index` in immediate-data
byte 0 and the four bytes of `struct.pack('<f', coeff)` in bytes 1..4
(the IEEE-754 encoding step is abstracted: the four bytes `c0..c3` are
taken as inputs), sets the declared length to 5, sends `0x00180111`, and
resets the declared length to 0.  None of the five buffer bytes is
cleared. -/
def set_wav_coeff (index : Nat) (c0 c1 c2 c3 : Nat) (s : STSState)
    (incoming : List (List Nat)) : CommandResult :=
  let s1 : STSState := { s with
    immediateData :=
      ((((s.immediateData.set 0 index).set 1 c0).set 2 c1).set 3 c2).set 4 c3,
    immediateDataLength := 5 }
  let r := send_command_to_device 0x00180111 false none s1 incoming true
  match r.error with
  | some e =>
      { state := s1, writes := r.writes, readsUsed := r.readsUsed,
        error := some e, printedError := false }
  | none =>
      { state := { s1 with immediateDataLength := 0 }, writes := r.writes,
        readsUsed := r.readsUsed, error := none, printedError := false }

/-- Loop body of `set_irrad_calib`: the source's `for index in calibration`
loop has the `_update_bytes_remaining` / `_send_command_to_device` /
`_update_bytes_remaining(0)` statements *inside* the loop body, so one send
of the whole (partly filled) `data` array happens per element — and none at
all for an empty calibration list.  A raised exception aborts the loop. -/
def set_irrad_calib_go (cal : List Int) (ind : Nat) (data : List Nat)
    (s : STSState) (incoming : List (List Nat))
    (writes : List (List Nat)) (reads : Nat) : CommandResult :=
  match cal with
  | [] =>
      { state := s, writes := writes, readsUsed := reads, error := none,
        printedError := false }
  | index :: rest =>
      let data := data.set ind (index.fmod 256).toNat
      let data := data.set (ind + 1) ((index.fdiv 256).fmod 256).toNat
      let data := data.set (ind + 2) ((index.fdiv (256 ^ 2)).fmod 256).toNat
      let data := data.set (ind + 3) ((index.fdiv (256 ^ 3)).fmod 256).toNat
      let s1 := update_bytes_remaining data.length s
      let r := send_command_to_device 0x00186010 true (some data) s1 incoming true
      match r.error with
      | some e =>
          { state := s1, writes := writes ++ r.writes,
            readsUsed := reads + r.readsUsed, error := some e,
            printedError := false }
      | none =>
          set_irrad_calib_go rest (ind + 4) data
            (update_bytes_remaining 0 s1) (incoming.drop r.readsUsed)
            (writes ++ r.writes) (reads + r.readsUsed)

/-- `set_irrad_calib(calibration, line)`: allocates `data` as
`len(calibration)*4` zeros, then runs the per-element loop.  The floats are
encoded by value arithmetic (`index%256`, `(index/256)%256`, ...), not from
their IEEE-754 bytes; elements are modelled as integers, for which the
Python float arithmetic coincides with `Int.fmod`/`Int.fdiv`. -/
def set_irrad_calib (calibration : List Int) (s : STSState)
    (incoming : List (List Nat)) : CommandResult :=
  set_irrad_calib_go calibration 0
    (List.replicate (calibration.length * 4) 0) s incoming [] 0

/-- Outcome of `reset_device`: the writes and reads performed, the exception
that escapes the call (the `try/except usb.core.USBError: pass` swallows
transport errors), and the fixed `time.sleep(1.5)` settle delay that runs
after the `try` block, in milliseconds. -/
structure ResetResult where
  writes : List (List Nat)
  readsUsed : Nat
  escaped : Option DriverError
  sleepAfterMs : Nat
  deriving DecidableEq, Repr

/-- `reset_device(line)`: sends command `0x00000000`, catching
`usb.core.USBError`, then sleeps 1.5 seconds. -/
def reset_device (s : STSState) (incoming : List (List Nat))
    (usbOk : Bool) : ResetResult :=
  let r := send_command_to_device 0x00000000 false none s incoming usbOk
  { writes := r.writes, readsUsed := r.readsUsed,
    escaped :=
      match r.error with
      | some DriverError.usb => none  -- except usb.core.USBError: pass
      | e => e,
    sleepAfterMs := 1500 }

/-! ## Helper lemmas -/

/-- Reading `n` consecutive bytes starting at offset `k` with `getD`
equals `take n` of `drop k`, when the list is long enough. -/
theorem range_map_getD (l : List Nat) (k n : Nat) (h : k + n ≤ l.length) :
    (List.range n).map (fun i => l.getD (k + i) 0) = (l.drop k).take n := by
  apply List.ext_getElem
  · simp
    omega
  · intro i h1 h2
    simp only [List.length_map, List.length_range] at h1
    simp only [List.getElem_map, List.getElem_range, List.getElem_take,
      List.getElem_drop]
    exact List.getD_eq_getElem l 0 (by omega)

/-- A payload-less send with a working transport always writes exactly the
one packet built from the current state, whatever the device answers. -/
theorem send_no_payload_writes (command : Nat) (s : STSState)
    (incoming : List (List Nat)) :
    (send_command_to_device command false none s incoming true).writes =
      [build_packet command 4 none s] := by
  simp only [send_command_to_device]
  split_ifs <;> simp_all

/-! ## Claim theorems -/

/-- C4: every frame produced by `_build_packet` has a length that is a
multiple of 64 bytes, whether or not an extended payload is present, and
in the no-payload case the frame is exactly 64 bytes — for every state,
in particular for every declared immediate-data length from 0 to 16. -/
theorem C4_frame_length_invariant (cmd fl : Nat) (s : STSState) :
    (build_packet cmd fl none s).length = 64 ∧
    ∀ d : List Nat, (build_packet cmd fl (some d) s).length % 64 = 0 := by
  refine ⟨by simp [build_packet, bytes16, u32le], fun d => ?_⟩
  simp [build_packet, bytes16, u32le, padTo44]
  omega

set_option maxRecDepth 10000 in
/-- C3 (counterexample): for the extended payload `[7]` of length `L = 1`
the encoded frame is 128 bytes = 2 blocks, while the claim's formula
`ceil((44+L)/64)` gives 1 block: the claim misses the padding to offset 44
of the final block plus the 16-byte checksum and 4-byte footer. -/
theorem C3_counterexample :
    (build_packet 0x00186010 4 (some [7])
        (update_bytes_remaining 1 initState)).length ≠
      64 * ((44 + 1 + 63) / 64) := by
  decide

/-- C3 (amended): for every extended payload of length `L ≥ 1`, the encoded
frame consists of exactly `1 + ceil(L/64)` 64-byte blocks, and its 4-byte
little-endian bytes-remaining field at offset 40 decodes to `20 + L`
(for any `20 + L` below `2^32`). -/
theorem C3_extended_payload_framing (cmd L : Nat) (d : List Nat) (s : STSState)
    (hL : d.length = L) (h1 : 1 ≤ L) (hsmall : 20 + L < 4294967296) :
    (build_packet cmd 4 (some d) (update_bytes_remaining L s)).length =
      64 * (1 + (L + 63) / 64) ∧
    read_u32le (build_packet cmd 4 (some d) (update_bytes_remaining L s)) 40 =
      20 + L := by
  constructor
  · simp [build_packet, bytes16, u32le, padTo44]
    omega
  · simp [build_packet, bytes16, u32le, read_u32le, update_bytes_remaining,
      List.getD_append, List.getD]
    omega

/-- C3 (witness): the amended theorem applied at `L = 1`, `d = [7]`. -/
theorem C3_witness :
    ([7] : List Nat).length = 1 ∧ 1 ≤ 1 ∧ 20 + 1 < 4294967296 ∧
    ((build_packet 0x00186010 4 (some [7])
        (update_bytes_remaining 1 initState)).length = 64 * (1 + (1 + 63) / 64) ∧
      read_u32le (build_packet 0x00186010 4 (some [7])
        (update_bytes_remaining 1 initState)) 40 = 20 + 1) :=
  ⟨rfl, Nat.le_refl 1, by decide,
    C3_extended_payload_framing 0x00186010 1 [7] initState rfl
      (Nat.le_refl 1) (by decide)⟩

set_option maxRecDepth 40000 in
/-- C1: evaluating `_query_device` on an exchange whose FIRST read already
returns a well-formed RESPONSE frame (flags byte `read[4] = 1`, declared
immediate-data length 4, a data byte, bytes-remaining 20): the call
performs one read and returns `None` — the data-extraction code of the
source sits entirely inside the `if read[4] != 1` retry branch, so the
first-read success path promised by the claim (and by the function's own
docstring) falls off the end of the function with no data. -/
theorem C1_first_frame_response_returns_none :
    (query_device 0x00000100 initState
        [((((List.replicate 64 0).set 4 1).set 23 4).set 24 9).set 40 20]).outcome
      = QueryOutcome.retNone ∧
    (query_device 0x00000100 initState
        [((((List.replicate 64 0).set 4 1).set 23 4).set 24 9).set 40 20]).readsUsed
      = 1 := by
  decide

set_option maxRecDepth 100000 in
/-- C2 (counterexample): a query exchange whose RESPONSE frame (the second
read; the first lacks the flag) declares bytes-remaining = 192 performs
`2 + 192/64 = 5` reads in total — `192/64 = 3` additional reads after the
RESPONSE frame, not the 2 the claim states. -/
theorem C2_counterexample :
    (query_device 0x00182001 initState
        [List.replicate 64 0, ((List.replicate 64 0).set 4 1).set 40 192,
         List.replicate 64 7, List.replicate 64 8, List.replicate 64 9]).readsUsed
      ≠ 2 + 2 := by
  decide

/-- C2 (amended): for every query exchange whose RESPONSE frame — obtained
on the retry read, the only path on which the source processes data —
declares bytes-remaining = 192, `_query_device` issues exactly 3 additional
64-byte reads (`192/64`) on the same line beyond the two initial reads, and
returns exactly 192 bytes of concatenated payload taken from after the
44-byte header of the RESPONSE block. -/
theorem C2_multiblock_query (cmd : Nat) (s : STSState) (r1 r2 : List Nat)
    (rest : List (List Nat))
    (h1 : r1.getD 4 0 ≠ 1) (h2 : r2.getD 4 0 = 1)
    (hbr : read_u32le r2 40 = 192) (hr2 : r2.length = 64)
    (hrest : ∀ f ∈ rest, f.length = 64) (h3 : 3 ≤ rest.length) :
    (query_device cmd s (r1 :: r2 :: rest)).readsUsed = 2 + 3 ∧
    (query_device cmd s (r1 :: r2 :: rest)).outcome =
      QueryOutcome.retData
        (((r2 ++ (rest.take 3).flatten).drop 44).take 192) := by
  have hflat : (rest.take 3).flatten.length = 192 := by
    rw [List.length_flatten]
    have hmem : ∀ b ∈ (rest.take 3).map List.length, b = 64 := by
      intro b hb
      obtain ⟨f, hf, rfl⟩ := List.mem_map.mp hb
      exact hrest f (List.take_subset 3 rest hf)
    rw [List.eq_replicate_of_mem hmem]
    simp [List.length_take]
    omega
  have hq : query_device cmd s (r1 :: r2 :: rest) =
      { sent := build_packet cmd 0 none s, readsUsed := 2 + 3,
        outcome := QueryOutcome.retData
          ((List.range (3 * 64)).map
            (fun ll => (r2 ++ (rest.take 3).flatten).getD (44 + ll) 0)) } := by
    simp only [query_device, external_read]
    rw [show (r1 :: r2 :: rest).getD 0 [] = r1 from rfl]
    rw [if_pos h1]
    rw [show (r1 :: r2 :: rest).getD 1 [] = r2 from rfl]
    rw [if_neg (not_not_intro h2), hbr]
    rw [if_neg (by decide)]
    rfl
  rw [hq]
  refine ⟨rfl, ?_⟩
  have := range_map_getD (r2 ++ (rest.take 3).flatten) 44 192 (by
    rw [List.length_append, hr2, hflat]; omega)
  simp only [show (3 : Nat) * 64 = 192 from rfl]
  rw [this]

set_option maxRecDepth 100000 in
/-- C2 (witness): the amended theorem applied to a concrete exchange:
first frame dead, RESPONSE frame with flags byte 1 and bytes-remaining 192,
three further 64-byte blocks of sevens, eights and nines. -/
theorem C2_witness :
    (List.replicate 64 0 : List Nat).getD 4 0 ≠ 1 ∧
    (((List.replicate 64 0).set 4 1).set 40 192 : List Nat).getD 4 0 = 1 ∧
    read_u32le (((List.replicate 64 0).set 4 1).set 40 192) 40 = 192 ∧
    ((query_device 0x00182001 initState
        (List.replicate 64 0 :: ((List.replicate 64 0).set 4 1).set 40 192 ::
          [List.replicate 64 7, List.replicate 64 8, List.replicate 64 9])).readsUsed
        = 2 + 3 ∧
      (query_device 0x00182001 initState
        (List.replicate 64 0 :: ((List.replicate 64 0).set 4 1).set 40 192 ::
          [List.replicate 64 7, List.replicate 64 8, List.replicate 64 9])).outcome =
        QueryOutcome.retData
          (((((List.replicate 64 0).set 4 1).set 40 192 ++
              ([List.replicate 64 7, List.replicate 64 8,
                List.replicate 64 9].take 3).flatten).drop 44).take 192)) :=
  ⟨by decide, by decide, by decide,
    C2_multiblock_query 0x00182001 initState (List.replicate 64 0)
      (((List.replicate 64 0).set 4 1).set 40 192)
      [List.replicate 64 7, List.replicate 64 8, List.replicate 64 9]
      (by decide) (by decide) (by decide) (by decide)
      (by intro f hf; fin_cases hf <;> decide) (by decide)⟩

/-- C5 (counterexample): `set_scans_to_avg(5001)` — out of range — makes no
transport write, but it also raises nothing: it prints a message and
returns normally, rather than failing with a typed `InvalidArgument` error
as the claim states. -/
theorem C5_counterexample :
    (set_scans_to_avg 5001 initState []).error = none ∧
    (set_scans_to_avg 5001 initState []).writes = [] ∧
    (set_scans_to_avg 5001 initState []).printedError = true := by
  decide

/-- C5 (amended): for every n in [1, 5000], `set_scans_to_avg(n)` writes a
single frame that encodes n as exactly 2 little-endian bytes (n mod 256 at
offset 24, then n div 256 at offset 25) in the immediate-data field with
declared immediate-data length 2 (offset 23); for every integer n outside
[1, 5000] it makes no transport write and raises no error — the source
prints an error message and returns normally. -/
theorem C5_set_scans_to_avg_encoding (n : Int) (s : STSState)
    (incoming : List (List Nat)) (hbuf : s.immediateData.length = 16) :
    (1 ≤ n ∧ n ≤ 5000 →
      ∃ p, (set_scans_to_avg n s incoming).writes = [p] ∧
        p.getD 23 0 = 2 ∧
        p.getD 24 0 = (n.fmod 256).toNat ∧
        p.getD 25 0 = ((n.fdiv 256).fmod 256).toNat) ∧
    (n < 1 ∨ 5000 < n →
      (set_scans_to_avg n s incoming).writes = [] ∧
      (set_scans_to_avg n s incoming).error = none ∧
      (set_scans_to_avg n s incoming).printedError = true) := by
  constructor
  · rintro ⟨hn1, hn2⟩
    have hcond : n < 5001 ∧ 0 < n := ⟨by omega, by omega⟩
    have hw : (set_scans_to_avg n s incoming).writes =
        [build_packet 0x00120010 4 none { s with
          immediateData := (s.immediateData.set 0 (n.fmod 256).toNat).set 1
            ((n.fdiv 256).fmod 256).toNat,
          immediateDataLength := 2 }] := by
      simp only [set_scans_to_avg, if_pos hcond]
      split <;> simp [send_no_payload_writes]
    refine ⟨_, hw, ?_, ?_, ?_⟩ <;>
      simp [build_packet, bytes16, u32le, List.getD_eq_getElem?_getD,
        List.getElem?_set, hbuf]
  · intro hout
    have hcond : ¬(n < 5001 ∧ 0 < n) := by omega
    simp [set_scans_to_avg, if_neg hcond]

/-- C5 (witness): the amended theorem applied at n = 300 on the initial
state: one write with declared length 2 and bytes 44, 1; and at the
implication for n = 300 the out-of-range conjunct is vacuous. -/
theorem C5_witness :
    (initState.immediateData.length = 16) ∧
    ((1 ≤ (300 : Int) ∧ (300 : Int) ≤ 5000 →
      ∃ p, (set_scans_to_avg 300 initState []).writes = [p] ∧
        p.getD 23 0 = 2 ∧
        p.getD 24 0 = ((300 : Int).fmod 256).toNat ∧
        p.getD 25 0 = (((300 : Int).fdiv 256).fmod 256).toNat) ∧
    ((300 : Int) < 1 ∨ 5000 < (300 : Int) →
      (set_scans_to_avg 300 initState []).writes = [] ∧
      (set_scans_to_avg 300 initState []).error = none ∧
      (set_scans_to_avg 300 initState []).printedError = true)) :=
  ⟨by decide, C5_set_scans_to_avg_encoding 300 initState [] (by decide)⟩

/-- C6: device error code 255 ("deferred, do not ACK/NACK yet") is NOT
given the wait-and-retry treatment the claim requires: `_error_management`
prints the deferred category text and then runs into the unconditional
`raise STS_Error` shared by every code, and a query whose retry read
reports code 255 raises immediately, performing no further read
(2 reads in total). -/
theorem C6_deferred_255_is_terminal :
    (error_management 255).raises = DriverError.sts 255 ∧
    (query_device 0x00101000 initState
        [List.replicate 64 0, (List.replicate 64 0).set 6 255]).outcome
      = QueryOutcome.raised (DriverError.sts 255) ∧
    (query_device 0x00101000 initState
        [List.replicate 64 0, (List.replicate 64 0).set 6 255]).readsUsed
      = 2 := by
  refine ⟨rfl, ?_, ?_⟩ <;> decide

/-- C7: `set_irrad_calib` with an empty array performs NO transport
exchange at all — the `_send_command_to_device` call sits inside the
`for index in calibration` loop, whose body never runs for an empty list —
so nothing is written, nothing is read and nothing is raised, contradicting
the claim (and the function's own docstring) that a zero-length payload is
sent to delete the stored calibration. -/
theorem C7_empty_calibration_no_exchange :
    (set_irrad_calib [] initState []).writes = [] ∧
    (set_irrad_calib [] initState []).readsUsed = 0 ∧
    (set_irrad_calib [] initState []).error = none := by
  refine ⟨rfl, rfl, rfl⟩

/-- C8 (counterexample): `set_trigger_mode(3)` — out of {0, 1, 2} — makes
no transport call, but raises nothing: the source prints a message and
returns normally instead of failing with a typed `InvalidArgument`. -/
theorem C8_counterexample :
    (set_trigger_mode 3 initState []).error = none ∧
    (set_trigger_mode 3 initState []).writes = [] ∧
    (set_trigger_mode 3 initState []).printedError = true := by
  decide

/-- C8 (amended): for t in {0, 1, 2}, `set_trigger_mode(t)` writes a single
frame carrying t as one byte of immediate data (offset 24) with declared
immediate-data length 1 (offset 23); for every integer t with |t| ≥ 3 it
makes no transport call and raises no error — the source prints a message
and returns normally.  (The source's guard is `abs(trig) < 3`, so the
negative values −1 and −2 also pass validation, which the original claim's
in-range clause does not cover.) -/
theorem C8_set_trigger_mode_encoding (t : Int) (s : STSState)
    (incoming : List (List Nat)) (hbuf : s.immediateData.length = 16) :
    (t = 0 ∨ t = 1 ∨ t = 2 →
      ∃ p, (set_trigger_mode t s incoming).writes = [p] ∧
        p.getD 23 0 = 1 ∧ p.getD 24 0 = t.toNat) ∧
    (3 ≤ t.natAbs →
      (set_trigger_mode t s incoming).writes = [] ∧
      (set_trigger_mode t s incoming).error = none ∧
      (set_trigger_mode t s incoming).printedError = true) := by
  constructor
  · intro ht
    have hcond : t.natAbs < 3 := by rcases ht with rfl | rfl | rfl <;> decide
    have hw : (set_trigger_mode t s incoming).writes =
        [build_packet 0x00110110 4 none { s with
          immediateData := s.immediateData.set 0 t.toNat,
          immediateDataLength := 1 }] := by
      simp only [set_trigger_mode, if_pos hcond]
      split <;> simp [send_no_payload_writes]
    refine ⟨_, hw, ?_, ?_⟩ <;>
      simp [build_packet, bytes16, u32le, List.getD_eq_getElem?_getD,
        List.getElem?_set, hbuf]
  · intro hout
    have hcond : ¬t.natAbs < 3 := by omega
    simp [set_trigger_mode, if_neg hcond]

/-- C8 (witness): the amended theorem applied at t = 1 on the initial
state: one write with declared length 1 and byte 1 at offset 24; the
out-of-range conjunct is vacuous at t = 1. -/
theorem C8_witness :
    (initState.immediateData.length = 16) ∧
    (((1 : Int) = 0 ∨ (1 : Int) = 1 ∨ (1 : Int) = 2 →
      ∃ p, (set_trigger_mode 1 initState []).writes = [p] ∧
        p.getD 23 0 = 1 ∧ p.getD 24 0 = (1 : Int).toNat) ∧
    (3 ≤ (1 : Int).natAbs →
      (set_trigger_mode 1 initState []).writes = [] ∧
      (set_trigger_mode 1 initState []).error = none ∧
      (set_trigger_mode 1 initState []).printedError = true)) :=
  ⟨by decide, C8_set_trigger_mode_encoding 1 initState [] (by decide)⟩

/-- C9: with the reset command code `0x00000000`, `_send_command_to_device`
performs no post-send read at all (the ACK read is guarded by
`if command != 0`), for every state, payload shape and transport outcome;
and `reset_device` lets no transport exception escape (the
`except usb.core.USBError: pass` swallows the write failure) and always
ends in the fixed `time.sleep(1.5)` settle delay. -/
theorem C9_reset_skips_read_and_swallows_errors (s : STSState)
    (incoming : List (List Nat)) (payload : Bool) (data : Option (List Nat))
    (usbOk : Bool) :
    (send_command_to_device 0 payload data s incoming usbOk).readsUsed = 0 ∧
    (reset_device s incoming usbOk).readsUsed = 0 ∧
    (reset_device s incoming usbOk).escaped = none ∧
    (reset_device s incoming usbOk).sleepAfterMs = 1500 := by
  refine ⟨?_, ?_, ?_, rfl⟩ <;>
    cases payload <;> cases data <;> cases usbOk <;>
      simp [send_command_to_device, reset_device]

/-- C10: bytes written into the shared 16-byte immediate-data buffer by
`set_wav_coeff` (index at buffer byte 0, the coefficient's four bytes at
1..4) persist after the call completes (here: first read ACKs, flags byte
3): only the declared immediate-data length is reset to 0, and since
`_build_packet` serializes all 16 buffer bytes, every frame subsequently
built on the same handle — any command, any flags, declared immediate-data
length 0 (frame offset 23) — still transmits those stale bytes at frame
offsets 24..28. -/
theorem C10_stale_immediate_data_persists (index c0 c1 c2 c3 : Nat)
    (s : STSState) (incoming : List (List Nat))
    (hbuf : s.immediateData.length = 16)
    (hack : (incoming.getD 0 []).getD 4 0 = 3) :
    (set_wav_coeff index c0 c1 c2 c3 s incoming).state.immediateDataLength
      = 0 ∧
    ∀ cmd fl,
      (build_packet cmd fl none
          (set_wav_coeff index c0 c1 c2 c3 s incoming).state).getD 23 0 = 0 ∧
      (build_packet cmd fl none
          (set_wav_coeff index c0 c1 c2 c3 s incoming).state).getD 24 0 = index ∧
      (build_packet cmd fl none
          (set_wav_coeff index c0 c1 c2 c3 s incoming).state).getD 25 0 = c0 ∧
      (build_packet cmd fl none
          (set_wav_coeff index c0 c1 c2 c3 s incoming).state).getD 26 0 = c1 ∧
      (build_packet cmd fl none
          (set_wav_coeff index c0 c1 c2 c3 s incoming).state).getD 27 0 = c2 ∧
      (build_packet cmd fl none
          (set_wav_coeff index c0 c1 c2 c3 s incoming).state).getD 28 0 = c3 := by
  have hst : (set_wav_coeff index c0 c1 c2 c3 s incoming).state =
      { s with
        immediateData :=
          ((((s.immediateData.set 0 index).set 1 c0).set 2 c1).set 3 c2).set 4 c3,
        immediateDataLength := 0 } := by
    have hack2 : (incoming[0]?.getD [])[4]?.getD 0 = 3 := by
      simpa [List.getD_eq_getElem?_getD] using hack
    simp [set_wav_coeff, send_command_to_device, hack2]
  rw [hst]
  refine ⟨rfl, fun cmd fl => ⟨?_, ?_, ?_, ?_, ?_, ?_⟩⟩ <;>
    simp [build_packet, bytes16, u32le, List.getD_eq_getElem?_getD,
      List.getElem?_set, hbuf]

/-- C10 (witness): the theorem applied on the initial state with index 0,
the four bytes 102, 6, 5, 68, and an ACKing device; specialised further to
a concrete follow-up frame (`get_serial`'s command `0x100`, query flags). -/
theorem C10_witness :
    (initState.immediateData.length = 16) ∧
    (([(List.replicate 64 0).set 4 3].getD 0 []).getD 4 0 = 3) ∧
    ((set_wav_coeff 0 102 6 5 68 initState
        [(List.replicate 64 0).set 4 3]).state.immediateDataLength = 0 ∧
      ∀ cmd fl,
        (build_packet cmd fl none
            (set_wav_coeff 0 102 6 5 68 initState
              [(List.replicate 64 0).set 4 3]).state).getD 23 0 = 0 ∧
        (build_packet cmd fl none
            (set_wav_coeff 0 102 6 5 68 initState
              [(List.replicate 64 0).set 4 3]).state).getD 24 0 = 0 ∧
        (build_packet cmd fl none
            (set_wav_coeff 0 102 6 5 68 initState
              [(List.replicate 64 0).set 4 3]).state).getD 25 0 = 102 ∧
        (build_packet cmd fl none
            (set_wav_coeff 0 102 6 5 68 initState
              [(List.replicate 64 0).set 4 3]).state).getD 26 0 = 6 ∧
        (build_packet cmd fl none
            (set_wav_coeff 0 102 6 5 68 initState
              [(List.replicate 64 0).set 4 3]).state).getD 27 0 = 5 ∧
        (build_packet cmd fl none
            (set_wav_coeff 0 102 6 5 68 initState
              [(List.replicate 64 0).set 4 3]).state).getD 28 0 = 68) :=
  ⟨by decide, by decide,
    C10_stale_immediate_data_persists 0 102 6 5 68 initState
      [(List.replicate 64 0).set 4 3] (by decide) (by decide)⟩

end STS
